import Mathlib

/-
Verification of the client-side fetch/merge/streaming logic of the journaling
frontend (App.tsx and its duplicated component source): the chat send path with
its streaming transport and buffered fallback, the entry-summary batch loader,
journal pagination, entry deletion, and the insights-dashboard fetches.

Texts are modeled as Lean String values.  The character-level operations that
the code performs through JavaScript string builtins (split, startsWith, slice,
trim) are modeled over the underlying character sequence so that they are
executable by kernel reduction.  JSON.parse is a JavaScript builtin external to
the repository, so it is abstracted as a parameter
parse : String -> Option (Option String):
none models a parse error (JSON.parse throws), some none models a parsed value
without a usable content field, and some (some c) models a parsed object whose
content field is the string c (the code only ever reads parsed.content).
-/

/-- Outbound HTTP request as constructed by the frontend: method, path with
query, optional JSON body reduced to its message payload, and the optional
abort-after timeout attached via an AbortController signal. -/
structure HttpRequest where
  method : String
  path : String
  body : Option String
  timeoutMs : Option Nat
  deriving DecidableEq, Repr

/-- Request built by sendMessage for POST /chat/stream with body
JSON.stringify with the single field message = text, and no timeout. -/
def chatStreamRequest (text : String) : HttpRequest :=
  { method := "POST", path := "/chat/stream", body := some text, timeoutMs := none }

/-- Request built by the sendMessage fallback for POST /chat with body
JSON.stringify with the single field message = text, and no timeout. -/
def chatRequest (text : String) : HttpRequest :=
  { method := "POST", path := "/chat", body := some text, timeoutMs := none }

/-- Sender discriminator of a conversation message. -/
inductive Sender where
  | user
  | ai
  deriving DecidableEq, Repr

/-- Conversation message as appended to conversationHistory; ids and
timestamps are Date.now based and irrelevant to the verified properties. -/
structure Message where
  sender : Sender
  text : String
  deriving DecidableEq, Repr

/-- Model of the JavaScript chunk.split with separator a newline, over the
character sequence: cur accumulates the current line in reverse. -/
def splitOnNlAux : List Char → List Char → List (List Char)
  | [], cur => [cur.reverse]
  | c :: rest, cur =>
    if c = '\n' then cur.reverse :: splitOnNlAux rest []
    else splitOnNlAux rest (c :: cur)

/-- JavaScript chunk.split with separator a newline. -/
def splitLines (s : String) : List String :=
  (splitOnNlAux s.data []).map String.mk

/-- JavaScript line.startsWith with the framing marker "data: ". -/
def startsWithMarker (line : String) : Bool :=
  "data: ".data.isPrefixOf line.data

/-- JavaScript s.slice n, dropping the first n characters. -/
def sliceFrom (n : Nat) (s : String) : String :=
  String.mk (s.data.drop n)

/-- JavaScript text.trim: drop leading and trailing whitespace. -/
def jsTrim (s : String) : String :=
  String.mk (((s.data.dropWhile Char.isWhitespace).reverse.dropWhile Char.isWhitespace).reverse)

/-- Per-line step of the streaming loop in sendMessage: on a line carrying the
framing marker, take the payload after the marker; the [DONE] sentinel is
skipped with continue; otherwise JSON.parse is attempted and, when the parsed
value has a truthy content field, that content is appended to the
accumulator.  Malformed payloads and unmarked lines leave the accumulator
unchanged. -/
def processLine (parse : String → Option (Option String)) (fullText line : String) : String :=
  if startsWithMarker line then
    let data := sliceFrom 6 line
    if data = "[DONE]" then fullText
    else
      match parse data with
      | some (some c) => if c = "" then fullText else fullText ++ c
      | _ => fullText
  else fullText

/-- Per-chunk step of the streaming loop: the decoded chunk is split on
newlines and each line is processed in order. -/
def processChunk (parse : String → Option (Option String)) (fullText chunk : String) : String :=
  (splitLines chunk).foldl (processLine parse) fullText

/-- Full streaming read loop of sendMessage: chunks are processed in arrival
order starting from the empty accumulator; the final accumulator is the text
written back into the streamed AI message. -/
def processChunks (parse : String → Option (Option String)) (chunks : List String) : String :=
  chunks.foldl (processChunk parse) ""

/-- Outcome of the POST /chat/stream attempt.  connectFail covers a thrown
fetch, a non-success status, and an absent body (all of which skip the
streaming branch); opened chunks readError models a response with a readable
body delivering the given decoded chunks, where readError records whether the
reader threw after those chunks instead of reporting done. -/
inductive StreamOutcome where
  | connectFail
  | opened (chunks : List String) (readError : Bool)

/-- Outcome of the fallback POST /chat request: ok carries the response field
of the parsed 200 body (the timestamp field is unused by the code); fail
covers a thrown fetch, a non-success status, and a body that fails to parse. -/
inductive ChatOutcome where
  | ok (response : String)
  | fail

/-- Fixed error text appended when the fallback also fails. -/
def chatErrorText : String := "Sorry, I encountered an error. Please try again."

/-- Messages appended by the fallback branch of sendMessage. -/
def fallbackMessages : ChatOutcome → List Message
  | .ok r => [⟨.ai, r⟩]
  | .fail => [⟨.ai, chatErrorText⟩]

/-- Observable result of one sendMessage invocation: the messages appended to
conversationHistory (with the texts they hold once every deferred state update
has run), the final isLoading and isStreaming flags, and the requests issued. -/
structure SendResult where
  appended : List Message
  isLoading : Bool
  isStreaming : Bool
  requests : List HttpRequest
  deriving DecidableEq, Repr

/-- Model of sendMessage.  A blank (whitespace-only) input returns before any
state change or request.  Otherwise the user message is appended and the
streaming endpoint is tried first.  If it yields a readable body, an AI
placeholder with empty text is appended and the chunks are folded into an
accumulator; when the reader finishes cleanly the accumulator is written into
the placeholder, but when the reader throws the placeholder keeps its empty
text and control falls through to the fallback, which appends one more AI
message (the buffered response on success, the fixed error text on failure).
A failed connection goes straight to the fallback.  The finally block leaves
isLoading and isStreaming false in every completed path. -/
def sendMessage (parse : String → Option (Option String)) (stream : StreamOutcome)
    (chat : ChatOutcome) (isLoading0 isStreaming0 : Bool) (text : String) : SendResult :=
  if jsTrim text = "" then
    { appended := [], isLoading := isLoading0, isStreaming := isStreaming0, requests := [] }
  else
    match stream with
    | .opened chunks false =>
      { appended := [⟨.user, text⟩, ⟨.ai, processChunks parse chunks⟩],
        isLoading := false, isStreaming := false,
        requests := [chatStreamRequest text] }
    | .opened _chunks true =>
      { appended := [⟨.user, text⟩, ⟨.ai, ""⟩] ++ fallbackMessages chat,
        isLoading := false, isStreaming := false,
        requests := [chatStreamRequest text, chatRequest text] }
    | .connectFail =>
      { appended := [⟨.user, text⟩] ++ fallbackMessages chat,
        isLoading := false, isStreaming := false,
        requests := [chatStreamRequest text, chatRequest text] }

/-- Reading of one line taken from the specification wording: a line carrying
the framing marker whose payload parses as JSON with a content field
contributes that content field, every other line contributes nothing. -/
def specLineContent (parse : String → Option (Option String)) (line : String) : Option String :=
  if startsWithMarker line then
    match parse (sliceFrom 6 line) with
    | some (some c) => some c
    | _ => none
  else none

/-- Specification-side assembled text: the concatenation, in arrival order, of
the contributions of all lines of all chunks. -/
def specStreamText (parse : String → Option (Option String)) (chunks : List String) : String :=
  String.join (((chunks.map splitLines).flatten).filterMap (specLineContent parse))

/-- Outcome of one per-entry GET /journal/id/insights fetch inside the batch
loader: ok carries the value of the expression joining the optional chain on
insights.summary with the empty-string default; httpError is a non-success
status; threw is a rejected fetch.  Both failure cases reach the
return of the empty-string placeholder. -/
inductive SummaryFetchRes where
  | ok (rawSummary : String)
  | httpError
  | threw

/-- Client state touched by the summary batch loader: the entrySummaries
cache, the per-id entrySummaryLoading flags, and the batchLoadingEntries
in-flight set (modeled as a list with membership as the set test). -/
structure SummaryState where
  entrySummaries : Nat → Option String
  entrySummaryLoading : Nat → Bool
  batchLoadingEntries : List Nat

/-- JavaScript truthiness of entrySummaries[id]: an absent entry and the
empty-string placeholder are both falsy. -/
def summaryTruthy : Option String → Bool
  | some s => !(s == "")
  | none => false

/-- The toLoad filter of loadEntrySummariesBatch: ids whose cached summary is
falsy, whose loading flag is unset, and which are not in the in-flight set. -/
def computeToLoad (st : SummaryState) (entryIds : List Nat) : List Nat :=
  entryIds.filter (fun id =>
    !(summaryTruthy (st.entrySummaries id)) && !(st.entrySummaryLoading id)
      && !(st.batchLoadingEntries.contains id))

/-- Batch size constant of the loader. -/
def batchSize : Nat := 3

/-- Partition of toLoad into consecutive slices of n, mirroring the for loop
pushing toLoad.slice i to i plus n. -/
def chunkBatches {α : Type} (n : Nat) : List α → List (List α)
  | [] => []
  | x :: xs => (x :: xs.take (n - 1)) :: chunkBatches n (xs.drop (n - 1))
termination_by l => l.length
decreasing_by simp [List.length_drop]; omega

/-- Summary value produced for one id of a dispatched batch: a successful
fetch yields the sanitized raw summary, both failure modes yield the
empty-string placeholder. -/
def resultSummary (sanitize : String → String) (fetchRes : Nat → SummaryFetchRes)
    (id : Nat) : String :=
  match fetchRes id with
  | .ok raw => sanitize raw
  | .httpError => ""
  | .threw => ""

/-- Merge of one settled batch into the cache: the results object is filled in
batch order and merged, so a later occurrence of an id overwrites an earlier
one. -/
def applyBatch (sanitize : String → String) (fetchRes : Nat → SummaryFetchRes)
    (cache : Nat → Option String) (batch : List Nat) : Nat → Option String :=
  batch.foldl
    (fun c id x => if x = id then some (resultSummary sanitize fetchRes id) else c x) cache

/-- GET request for the per-entry insights endpoint used by the batch
loader. -/
def insightsRequest (id : Nat) : HttpRequest :=
  { method := "GET", path := "/journal/" ++ toString id ++ "/insights",
    body := none, timeoutMs := none }

/-- Concurrent request groups dispatched by one loadEntrySummariesBatch
invocation: each batch of toLoad is mapped over fetch concurrently and joined
with Promise.allSettled before the next batch starts; requests inside one
group are outstanding at the same time. -/
def dispatchedBatchRequests (st : SummaryState) (entryIds : List Nat) : List (List HttpRequest) :=
  (chunkBatches batchSize (computeToLoad st entryIds)).map (fun b => b.map insightsRequest)

/-- Model of loadEntrySummariesBatch.  The filtered toLoad ids are marked
loading and added to the in-flight set, the batches are fetched group by
group with all-settled joins and merged into the cache, and the finally block
clears the loading flags and removes toLoad from the in-flight set whether or
not the individual fetches succeeded.  The sanitizeSummary regex pipeline is
abstracted as the sanitize parameter. -/
def loadEntrySummariesBatch (sanitize : String → String) (fetchRes : Nat → SummaryFetchRes)
    (st : SummaryState) (entryIds : List Nat) : SummaryState :=
  let toLoad := computeToLoad st entryIds
  if toLoad.isEmpty then st
  else
    let loading1 := fun id => if toLoad.contains id then true else st.entrySummaryLoading id
    let batchLoading1 := st.batchLoadingEntries ++ toLoad
    let cache1 := (chunkBatches batchSize toLoad).foldl (applyBatch sanitize fetchRes) st.entrySummaries
    { entrySummaries := cache1,
      entrySummaryLoading := fun id => if toLoad.contains id then false else loading1 id,
      batchLoadingEntries := batchLoading1.filter (fun id => !(toLoad.contains id)) }

/-- Journal entry record; only the id is relevant to the verified list
operations, title and content are carried along. -/
structure JournalEntry where
  id : Nat
  title : Option String
  content : String
  deriving DecidableEq, Repr

/-- List cell text for an entry: the cached summary when truthy, otherwise the
locally computed preview of the entry content (the getEntryPreview regex
pipeline is abstracted as the preview parameter). -/
def entryCellText (preview : String → String) (st : SummaryState) (e : JournalEntry) : String :=
  match st.entrySummaries e.id with
  | some s => if s == "" then preview e.content else s
  | none => preview e.content

/-- Pagination state of the entry list store. -/
structure JournalState where
  journal : List JournalEntry
  journalPage : Nat
  journalTotal : Nat
  deriving DecidableEq, Repr

/-- Page size constant PAGE_SIZE. -/
def PAGE_SIZE : Nat := 10

/-- Outcome of one GET /journal page fetch: ok carries the parsed items, fail
covers a non-success status and a thrown fetch (both leave the state
unchanged). -/
inductive PageResult where
  | ok (items : List JournalEntry)
  | fail

/-- GET request for one journal page. -/
def journalPageRequest (limit offsetArg : Nat) : HttpRequest :=
  { method := "GET",
    path := "/journal?limit=" ++ toString limit ++ "&offset=" ++ toString offsetArg,
    body := none, timeoutMs := none }

/-- Model of loadMoreJournal: without a user id, or once the next offset
journalPage times PAGE_SIZE reaches journalTotal, it returns before issuing
any request; otherwise it fetches the next page and, on success, appends the
items and increments the page counter. -/
def loadMoreJournal (userId : Bool) (server : Nat → Nat → PageResult)
    (st : JournalState) : JournalState × List HttpRequest :=
  if !userId then (st, [])
  else
    let nextOffset := st.journalPage * PAGE_SIZE
    if nextOffset ≥ st.journalTotal then (st, [])
    else
      let req := journalPageRequest PAGE_SIZE nextOffset
      match server PAGE_SIZE nextOffset with
      | .ok items =>
        ({ st with journal := st.journal ++ items, journalPage := st.journalPage + 1 }, [req])
      | .fail => (st, [req])

/-- List plus detail-view selection state touched by deleteJournalEntry. -/
structure SelectionState where
  journal : List JournalEntry
  selectedEntry : Option JournalEntry
  deriving DecidableEq, Repr

/-- Model of deleteJournalEntry: on a success status the entry is filtered out
of the list by id and, when the optional-chained id of selectedEntry equals
the deleted id, the selection is cleared; on failure nothing changes. -/
def deleteJournalEntry (resOk : Bool) (st : SelectionState) (id : Nat) : SelectionState × Bool :=
  if resOk then
    ({ journal := st.journal.filter (fun j => j.id != id),
       selectedEntry :=
         if (match st.selectedEntry with
             | some e => e.id == id
             | none => false) then none else st.selectedEntry }, true)
  else (st, false)

/-- Outcome of a GET /insights/dashboard fetch: ok with a parsed body, a
non-success status with the response body text, an AbortError thrown by the
60-second abort timer, or any other thrown transport error. -/
inductive DashboardFetchOutcome where
  | ok (body : String)
  | httpError (status : Nat) (bodyText : String)
  | abortTimeout
  | networkError

/-- Request for the insights dashboard as built by both fetchDashboardData in
the InsightsDashboard component and refreshDashboard in the app root: a GET
with an AbortController whose abort is scheduled 60000 milliseconds out. -/
def insightsDashboardRequest : HttpRequest :=
  { method := "GET", path := "/insights/dashboard", body := none, timeoutMs := some 60000 }

/-- Model of fetchDashboardData in the InsightsDashboard component, reduced to
the pair of the stored dashboard data and the stored error message. -/
def fetchDashboardData (r : DashboardFetchOutcome) : Option String × Option String :=
  match r with
  | .ok body => (some body, none)
  | .httpError status bodyText =>
    (none, some ("Failed to load insights dashboard: " ++ toString status ++ " - " ++ bodyText))
  | .abortTimeout =>
    (none, some "Request timed out. The analysis is taking longer than expected. Please try again.")
  | .networkError => (none, some "Failed to load insights dashboard. Please try again.")

/-- Error message stored by refreshDashboard in the app root for the same
fetch outcomes: its else branch and its catch block both store the generic
text, without distinguishing an AbortError and without the status or body. -/
def refreshDashboardError (r : DashboardFetchOutcome) : Option String :=
  match r with
  | .ok _ => none
  | .httpError _ _ => some "Failed to load insights"
  | .abortTimeout => some "Failed to load insights"
  | .networkError => some "Failed to load insights"

/-- Folding append over strings pulls the accumulator out front. -/
theorem string_foldl_append (l : List String) : ∀ (a : String),
    l.foldl (· ++ ·) a = a ++ l.foldl (· ++ ·) "" := by
  induction l with
  | nil => intro a; simp [String.append_empty]
  | cons x xs ih =>
    intro a
    simp only [List.foldl_cons]
    rw [ih (a ++ x), ih ("" ++ x), String.empty_append, String.append_assoc]

/-- String.join of a cons. -/
theorem string_join_cons (s : String) (l : List String) :
    String.join (s :: l) = s ++ String.join l := by
  simp only [String.join, List.foldl_cons]
  rw [string_foldl_append l ("" ++ s), String.empty_append]

/-- String.join distributes over list append. -/
theorem string_join_append (l1 l2 : List String) :
    String.join (l1 ++ l2) = String.join l1 ++ String.join l2 := by
  induction l1 with
  | nil => simp [String.join, String.empty_append]
  | cons x xs ih =>
    rw [List.cons_append, string_join_cons, ih, string_join_cons, String.append_assoc]

/-- One streaming line appends exactly its specification-side contribution,
provided the sentinel payload is not valid JSON (JSON.parse of the literal
DONE marker always throws). -/
theorem processLine_eq (parse : String → Option (Option String))
    (hp : parse "[DONE]" = none) (acc line : String) :
    processLine parse acc line = acc ++ ((specLineContent parse line).getD "") := by
  simp only [processLine, specLineContent]
  cases h1 : startsWithMarker line
  · simp [String.append_empty]
  · simp only [if_true]
    by_cases h2 : sliceFrom 6 line = "[DONE]"
    · simp [h2, hp, String.append_empty]
    · cases h3 : parse (sliceFrom 6 line) with
      | none => simp [h2, h3, String.append_empty]
      | some o =>
        cases o with
        | none => simp [h2, h3, String.append_empty]
        | some c =>
          by_cases hc : c = ""
          · simp [h2, h3, hc, String.append_empty]
          · simp [h2, h3, hc]

/-- Folding the per-line step over a list of lines appends the join of the
specification-side contributions. -/
theorem foldl_processLine_eq (parse : String → Option (Option String))
    (hp : parse "[DONE]" = none) :
    ∀ (lines : List String) (acc : String),
      lines.foldl (processLine parse) acc
        = acc ++ String.join (lines.filterMap (specLineContent parse)) := by
  intro lines
  induction lines with
  | nil => intro acc; simp [String.join, String.append_empty]
  | cons l ls ih =>
    intro acc
    rw [List.foldl_cons, ih, processLine_eq parse hp]
    cases h : specLineContent parse l with
    | none => simp [List.filterMap_cons, h, String.append_empty]
    | some c => simp [List.filterMap_cons, h, string_join_cons, String.append_assoc]

/-- One chunk appends the join of the contributions of its lines. -/
theorem processChunk_eq (parse : String → Option (Option String))
    (hp : parse "[DONE]" = none) (acc chunk : String) :
    processChunk parse acc chunk
      = acc ++ String.join ((splitLines chunk).filterMap (specLineContent parse)) :=
  foldl_processLine_eq parse hp (splitLines chunk) acc

/-- The streaming fold equals the specification-side assembled text. -/
theorem processChunks_eq (parse : String → Option (Option String))
    (hp : parse "[DONE]" = none) (chunks : List String) :
    processChunks parse chunks = specStreamText parse chunks := by
  suffices h : ∀ (cs : List String) (acc : String),
      cs.foldl (processChunk parse) acc
        = acc ++ String.join (((cs.map splitLines).flatten).filterMap (specLineContent parse)) by
    have h2 := h chunks ""
    simpa [processChunks, specStreamText, String.empty_append] using h2
  intro cs
  induction cs with
  | nil => intro acc; simp [String.join, String.append_empty]
  | cons c cs ih =>
    intro acc
    rw [List.foldl_cons, processChunk_eq parse hp, ih]
    simp [List.filterMap_append, string_join_append, String.append_assoc]

/-- Parse stub used by concrete instances of the streaming claims. -/
def sampleParse1 : String → Option (Option String) :=
  fun s => if s = "CA" then some (some "Hello")
    else if s = "CB" then some (some " world") else none

/-- C1: for every sequence of received stream chunks, each split on newlines
into lines, the final text written into the streamed AI message equals the
concatenation, in arrival order, of the content fields of all lines that
carry the framing marker and whose payload parses as JSON with a content
field; malformed JSON lines and unmarked lines contribute nothing and do not
abort the stream.  The hypothesis on the sentinel reflects that JSON.parse of
the DONE marker always throws. -/
theorem c1_stream_assembly (parse : String → Option (Option String))
    (chunks : List String) (chat : ChatOutcome) (l0 s0 : Bool) (text : String)
    (htext : jsTrim text ≠ "") (hp : parse "[DONE]" = none) :
    (sendMessage parse (.opened chunks false) chat l0 s0 text).appended
      = [⟨.user, text⟩, ⟨.ai, specStreamText parse chunks⟩] := by
  simp [sendMessage, htext, processChunks_eq parse hp]

/-- Instance of c1_stream_assembly at a concrete chunk sequence in which a
marked line spans two chunks, one line is junk, and one marked payload is
malformed. -/
theorem c1_stream_assembly_inst :
    jsTrim "hi" ≠ "" ∧ sampleParse1 "[DONE]" = none ∧
    (sendMessage sampleParse1 (.opened ["data: CA\njunk\nda", "ta: nope\ndata: CB"] false)
        .fail false false "hi").appended
      = [⟨.user, "hi"⟩, ⟨.ai, "Hello world"⟩] := by
  refine ⟨by decide, rfl, ?_⟩
  rw [c1_stream_assembly sampleParse1 ["data: CA\njunk\nda", "ta: nope\ndata: CB"]
    .fail false false "hi" (by decide) rfl]
  rfl

/-- Boolean test for the sentinel line of the claim reading of C4. -/
def isDoneLine (line : String) : Bool :=
  startsWithMarker line && (sliceFrom 6 line == "[DONE]")

/-- Claim-side reading of C4: assembled text when processing is assumed to
stop at the first termination line, so that nothing after it contributes. -/
def specStreamTextStopped (parse : String → Option (Option String))
    (chunks : List String) : String :=
  String.join ((((chunks.map splitLines).flatten).takeWhile
    (fun l => !(isDoneLine l))).filterMap (specLineContent parse))

/-- Parse stub mapping one concrete payload to a content field. -/
def sampleParseX : String → Option (Option String) :=
  fun s => if s = "CX" then some (some "X") else none

/-- C4 counterexample: a content fragment arriving after the termination
payload still contributes.  On a chunk holding the sentinel line followed by
a marked content line, the code assembles the content while the claim-side
stop-at-sentinel text is empty. -/
theorem c4_counterexample :
    processChunks sampleParseX ["data: [DONE]\ndata: CX"] = "X" ∧
    specStreamTextStopped sampleParseX ["data: [DONE]\ndata: CX"] = "" ∧
    ("X" : String) ≠ "" :=
  ⟨rfl, rfl, by decide⟩

/-- C4 amended: the termination payload does not end the stream; its line is
skipped with continue and contributes nothing, and processing of everything
around it is unchanged, so fragments after it still contribute.  The stream
ends only when the reader reports done. -/
theorem c4_done_sentinel_skipped (parse : String → Option (Option String))
    (xs ys : List String) (acc : String) :
    processLine parse acc "data: [DONE]" = acc ∧
    processChunks parse (xs ++ "data: [DONE]" :: ys) = processChunks parse (xs ++ ys) := by
  have hline : ∀ a : String, processLine parse a "data: [DONE]" = a := fun a => rfl
  have hstep : ∀ a : String, processChunk parse a "data: [DONE]" = a := fun a => rfl
  refine ⟨hline acc, ?_⟩
  simp [processChunks, List.foldl_append, hstep]

/-- C10: for every input whose trimmed text is empty, sendMessage is a
complete no-op: nothing is appended, no request is issued, and the loading
and streaming flags are left untouched. -/
theorem c10_blank_input_noop (parse : String → Option (Option String))
    (stream : StreamOutcome) (chat : ChatOutcome) (l0 s0 : Bool) (text : String)
    (h : jsTrim text = "") :
    sendMessage parse stream chat l0 s0 text
      = { appended := [], isLoading := l0, isStreaming := s0, requests := [] } := by
  simp [sendMessage, h]

/-- Instance of c10_blank_input_noop on a whitespace-only input. -/
theorem c10_blank_input_noop_inst :
    jsTrim "   " = "" ∧
    sendMessage sampleParse1 .connectFail .fail true false "   "
      = { appended := [], isLoading := true, isStreaming := false, requests := [] } :=
  ⟨rfl, c10_blank_input_noop sampleParse1 .connectFail .fail true false "   " rfl⟩

/-- Number of user messages in a list. -/
def userCount (msgs : List Message) : Nat :=
  (msgs.filter (fun m => m.sender == Sender.user)).length

/-- Number of AI messages in a list. -/
def aiCount (msgs : List Message) : Nat :=
  (msgs.filter (fun m => m.sender == Sender.ai)).length

/-- C2 counterexample: when the opened stream throws while being read (after
the empty AI placeholder was appended) and the fallback then fails, a single
invocation with non-blank input appends one user message and two AI
messages, so the exactly-one-AI-message contract does not hold on this
path. -/
theorem c2_counterexample :
    jsTrim "hi" ≠ "" ∧
    (sendMessage sampleParse1 (.opened [] true) .fail false false "hi").appended
      = [⟨.user, "hi"⟩, ⟨.ai, ""⟩, ⟨.ai, "Sorry, I encountered an error. Please try again."⟩] ∧
    aiCount (sendMessage sampleParse1 (.opened [] true) .fail false false "hi").appended = 2 := by
  refine ⟨by decide, rfl, by decide⟩

/-- C2 amended: per invocation with non-blank input exactly one user message
is appended, and exactly one AI message unless the opened stream throws while
being read, in which case the empty placeholder remains and the fallback
appends a second AI message; each of the two endpoints is requested at most
once (no automatic retry). -/
theorem c2_message_counts (parse : String → Option (Option String))
    (stream : StreamOutcome) (chat : ChatOutcome) (l0 s0 : Bool) (text : String)
    (h : jsTrim text ≠ "") :
    userCount (sendMessage parse stream chat l0 s0 text).appended = 1 ∧
    aiCount (sendMessage parse stream chat l0 s0 text).appended
      = (match stream with | .opened _ true => 2 | _ => 1) ∧
    ((sendMessage parse stream chat l0 s0 text).requests = [chatStreamRequest text] ∨
      (sendMessage parse stream chat l0 s0 text).requests
        = [chatStreamRequest text, chatRequest text]) := by
  cases stream with
  | connectFail => cases chat <;> simp [sendMessage, h, fallbackMessages, userCount, aiCount]
  | opened chunks readError =>
    cases readError <;> cases chat <;>
      simp [sendMessage, h, fallbackMessages, userCount, aiCount]

/-- Instance of c2_message_counts on a successful streamed exchange. -/
theorem c2_message_counts_inst :
    jsTrim "hi" ≠ "" ∧
    userCount (sendMessage sampleParse1 (.opened ["data: CA"] false) .fail false false "hi").appended = 1 ∧
    aiCount (sendMessage sampleParse1 (.opened ["data: CA"] false) .fail false false "hi").appended = 1 :=
  ⟨by decide,
   (c2_message_counts sampleParse1 (.opened ["data: CA"] false) .fail false false "hi" (by decide)).1,
   (c2_message_counts sampleParse1 (.opened ["data: CA"] false) .fail false false "hi" (by decide)).2.1⟩

/-- C3: when the streaming request fails outright, sendMessage falls back to
POST /chat with the identical message payload; on a 200 body with response ok
exactly the user message and one AI message with text ok are appended and
both busy flags end false (idle, input enabled); when the fallback also fails
the appended AI message carries the fixed error text. -/
theorem c3_fallback_contract (parse : String → Option (Option String))
    (l0 s0 : Bool) (text : String) (h : jsTrim text ≠ "") :
    sendMessage parse .connectFail (.ok "ok") l0 s0 text
      = { appended := [⟨.user, text⟩, ⟨.ai, "ok"⟩],
          isLoading := false, isStreaming := false,
          requests := [chatStreamRequest text, chatRequest text] } ∧
    (chatRequest text).body = (chatStreamRequest text).body ∧
    (sendMessage parse .connectFail .fail l0 s0 text).appended
      = [⟨.user, text⟩, ⟨.ai, "Sorry, I encountered an error. Please try again."⟩] := by
  refine ⟨?_, rfl, ?_⟩ <;> simp [sendMessage, h, fallbackMessages, chatErrorText]

/-- Instance of c3_fallback_contract at a concrete input. -/
theorem c3_fallback_contract_inst :
    jsTrim "hello" ≠ "" ∧
    sendMessage sampleParse1 .connectFail (.ok "ok") false false "hello"
      = { appended := [⟨.user, "hello"⟩, ⟨.ai, "ok"⟩],
          isLoading := false, isStreaming := false,
          requests := [chatStreamRequest "hello", chatRequest "hello"] } :=
  ⟨by decide, (c3_fallback_contract sampleParse1 false false "hello" (by decide)).1⟩

/-- Concatenating the batches gives back the filtered id list. -/
theorem chunkBatches_flatten {α : Type} (n : Nat) : ∀ (l : List α),
    (chunkBatches n l).flatten = l
  | [] => by simp [chunkBatches]
  | x :: xs => by
    simp only [chunkBatches, List.flatten_cons]
    rw [chunkBatches_flatten n (xs.drop (n - 1))]
    simp [List.take_append_drop]
termination_by l => l.length
decreasing_by simp [List.length_drop]; omega

/-- Every batch is a sublist of the filtered id list. -/
theorem chunkBatches_sublist {α : Type} (n : Nat) : ∀ (l : List α),
    ∀ b ∈ chunkBatches n l, b.Sublist l
  | [] => by simp [chunkBatches]
  | x :: xs => by
    intro b hb
    simp only [chunkBatches, List.mem_cons] at hb
    rcases hb with rfl | hb
    · exact (List.take_sublist _ _).cons₂ x
    · exact ((chunkBatches_sublist n (xs.drop (n - 1)) b hb).trans
        (List.drop_sublist _ _)).cons x
termination_by l => l.length
decreasing_by simp [List.length_drop]; omega

/-- List containment is membership. -/
theorem contains_of_mem {l : List Nat} {x : Nat} (h : x ∈ l) : l.contains x = true := by
  simpa using h

/-- Empty starting state for the summary cache. -/
def initSummaryState : SummaryState :=
  ⟨fun _ => none, fun _ => false, []⟩

/-- C5 counterexample: one loadEntrySummariesBatch invocation whose input
list carries the id 7 twice dispatches, inside one concurrent all-settled
group, two simultaneous requests for entry 7: the dedup filter checks the
cache, the loading flags and the in-flight set, but none of these is updated
between the two occurrences of the same invocation list. -/
theorem c5_counterexample :
    dispatchedBatchRequests initSummaryState [7, 7]
      = [[insightsRequest 7, insightsRequest 7]] ∧
    ((dispatchedBatchRequests initSummaryState [7, 7]).headD []).count (insightsRequest 7) = 2 := by
  have h1 : dispatchedBatchRequests initSummaryState [7, 7]
      = [[insightsRequest 7, insightsRequest 7]] := by
    simp [dispatchedBatchRequests, computeToLoad, initSummaryState, chunkBatches,
      batchSize, summaryTruthy]
  refine ⟨h1, ?_⟩
  rw [h1]
  decide

/-- C5 amended: ids already cached with a truthy summary, already flagged as
loading, or already in the in-flight set are filtered out before dispatch, so
a second invocation made while a first is in flight never re-requests an id
of the first; and for an input list without duplicate ids every concurrent
batch is duplicate-free.  A duplicated id inside a single input list,
however, passes the filter once per occurrence and is requested twice in the
same concurrent batch (see the counterexample). -/
theorem c5_no_duplicate_inflight (st : SummaryState) (entryIds : List Nat) :
    (∀ id, st.batchLoadingEntries.contains id = true → id ∉ computeToLoad st entryIds) ∧
    (∀ id, summaryTruthy (st.entrySummaries id) = true → id ∉ computeToLoad st entryIds) ∧
    (∀ id, st.entrySummaryLoading id = true → id ∉ computeToLoad st entryIds) ∧
    (entryIds.Nodup → ∀ b ∈ chunkBatches batchSize (computeToLoad st entryIds), b.Nodup) := by
  refine ⟨?_, ?_, ?_, ?_⟩
  · intro id hc hm
    have h := List.of_mem_filter hm
    simp at h
    exact h.2 (by simpa using hc)
  · intro id hc hm
    have h := List.of_mem_filter hm
    simp [hc] at h
  · intro id hc hm
    have h := List.of_mem_filter hm
    simp [hc] at h
  · intro hnd b hb
    exact (chunkBatches_sublist batchSize (computeToLoad st entryIds) b hb).nodup
      (hnd.filter _)

/-- State with id 5 in flight, used to instantiate c5_no_duplicate_inflight. -/
def inFlightState : SummaryState :=
  ⟨fun _ => none, fun _ => false, [5]⟩

/-- Instance of c5_no_duplicate_inflight: with id 5 in flight, a new
invocation covering ids 5 and 6 does not re-request 5, and its dispatched
batch for the duplicate-free input is duplicate-free. -/
theorem c5_no_duplicate_inflight_inst :
    (5 ∉ computeToLoad inFlightState [5, 6]) ∧ ([6] : List Nat).Nodup :=
  ⟨(c5_no_duplicate_inflight inFlightState [5, 6]).1 5 rfl,
   (c5_no_duplicate_inflight inFlightState [5, 6]).2.2.2 (by decide) [6]
     (by simp [computeToLoad, inFlightState, summaryTruthy, batchSize, chunkBatches])⟩

/-- Lookup into the cache after one batch merge: ids of the batch map to
their per-id result, everything else is unchanged. -/
theorem applyBatch_lookup (sanitize : String → String) (fetchRes : Nat → SummaryFetchRes) :
    ∀ (batch : List Nat) (cache : Nat → Option String) (x : Nat),
      applyBatch sanitize fetchRes cache batch x
        = if batch.contains x then some (resultSummary sanitize fetchRes x) else cache x := by
  intro batch
  induction batch with
  | nil => intro cache x; simp [applyBatch]
  | cons a t ih =>
    intro cache x
    have hstep : applyBatch sanitize fetchRes cache (a :: t) x
        = applyBatch sanitize fetchRes
            (fun y => if y = a then some (resultSummary sanitize fetchRes a) else cache y) t x :=
      rfl
    rw [hstep, ih]
    by_cases hxt : x ∈ t
    · simp [hxt]
    · by_cases hxa : x = a
      · subst hxa
        simp [hxt]
      · simp [hxt, hxa]

/-- Lookup into the cache after folding all batch merges: any id contained in
some batch maps to its per-id result, everything else is unchanged. -/
theorem foldl_applyBatch_lookup (sanitize : String → String)
    (fetchRes : Nat → SummaryFetchRes) :
    ∀ (batches : List (List Nat)) (cache : Nat → Option String) (x : Nat),
      (batches.foldl (applyBatch sanitize fetchRes) cache) x
        = if batches.any (fun b => b.contains x)
            then some (resultSummary sanitize fetchRes x) else cache x := by
  intro batches
  induction batches with
  | nil => intro cache x; simp
  | cons b bs ih =>
    intro cache x
    rw [List.foldl_cons, ih]
    cases h : bs.any (fun b => b.contains x)
    · simp only [Bool.false_eq_true, if_false]
      rw [applyBatch_lookup sanitize fetchRes b cache x]
      by_cases hxb : x ∈ b
      · simp [hxb]
      · have hno : ¬∃ l ∈ bs, x ∈ l := by
          intro ⟨l, hl, hxl⟩
          have := List.any_eq_true.2 ⟨l, hl, contains_of_mem hxl⟩
          rw [h] at this
          cases this
        simp [hxb, List.any_cons, hno]
    · have hex : ∃ l ∈ bs, x ∈ l := by
        rcases List.any_eq_true.1 h with ⟨l, hl, hxl⟩
        exact ⟨l, hl, by simpa using hxl⟩
      simp [List.any_cons, hex]

/-- Lookup after a full loadEntrySummariesBatch run, for every id of the
dispatched set. -/
theorem loadEntrySummariesBatch_lookup (sanitize : String → String)
    (fetchRes : Nat → SummaryFetchRes) (st : SummaryState) (entryIds : List Nat)
    (j : Nat) (hj : j ∈ computeToLoad st entryIds) :
    (loadEntrySummariesBatch sanitize fetchRes st entryIds).entrySummaries j
      = some (resultSummary sanitize fetchRes j) := by
  have hne : (computeToLoad st entryIds).isEmpty = false := by
    cases h : (computeToLoad st entryIds).isEmpty
    · rfl
    · rw [List.isEmpty_iff] at h
      rw [h] at hj
      cases hj
  have hany : (chunkBatches batchSize (computeToLoad st entryIds)).any
      (fun b => b.contains j) = true := by
    have hj2 : j ∈ (chunkBatches batchSize (computeToLoad st entryIds)).flatten := by
      rw [chunkBatches_flatten]
      exact hj
    rcases List.mem_flatten.1 hj2 with ⟨b, hb, hjb⟩
    exact List.any_eq_true.2 ⟨b, hb, contains_of_mem hjb⟩
  simp only [loadEntrySummariesBatch, hne, Bool.false_eq_true, if_false]
  rw [foldl_applyBatch_lookup sanitize fetchRes _ _ j, hany]
  simp

/-- C6: when the summary fetch of an entry in the dispatched set returns a
non-success status, the batch run (a total function: the per-promise catch
and the all-settled join let no exception escape) leaves that entry with the
empty-string placeholder, which stays falsy, so the list cell falls back to
the locally computed preview; the in-flight marker of the entry is cleared,
and every other dispatched entry still receives its own result, so the
failure blocks nothing. -/
theorem c6_failure_isolated (sanitize : String → String)
    (fetchRes : Nat → SummaryFetchRes) (st : SummaryState) (entryIds : List Nat)
    (preview : String → String) (e : JournalEntry)
    (he : e.id ∈ computeToLoad st entryIds) (hf : fetchRes e.id = .httpError) :
    (loadEntrySummariesBatch sanitize fetchRes st entryIds).entrySummaries e.id = some "" ∧
    summaryTruthy ((loadEntrySummariesBatch sanitize fetchRes st entryIds).entrySummaries e.id)
      = false ∧
    entryCellText preview (loadEntrySummariesBatch sanitize fetchRes st entryIds) e
      = preview e.content ∧
    (loadEntrySummariesBatch sanitize fetchRes st entryIds).batchLoadingEntries.contains e.id
      = false ∧
    (∀ j, j ∈ computeToLoad st entryIds →
      (loadEntrySummariesBatch sanitize fetchRes st entryIds).entrySummaries j
        = some (resultSummary sanitize fetchRes j)) := by
  have h1 : (loadEntrySummariesBatch sanitize fetchRes st entryIds).entrySummaries e.id
      = some "" := by
    rw [loadEntrySummariesBatch_lookup sanitize fetchRes st entryIds e.id he]
    simp [resultSummary, hf]
  have hne : (computeToLoad st entryIds).isEmpty = false := by
    cases h : (computeToLoad st entryIds).isEmpty
    · rfl
    · rw [List.isEmpty_iff] at h
      rw [h] at he
      cases he
  refine ⟨h1, ?_, ?_, ?_, fun j hj => loadEntrySummariesBatch_lookup sanitize fetchRes st entryIds j hj⟩
  · rw [h1]
    rfl
  · simp [entryCellText, h1]
  · simp only [loadEntrySummariesBatch, hne, Bool.false_eq_true, if_false]
    cases h : (((st.batchLoadingEntries ++ computeToLoad st entryIds).filter
        (fun id => !((computeToLoad st entryIds).contains id))).contains e.id)
    · rfl
    · have hm := (by simpa using h :
        e.id ∈ (st.batchLoadingEntries ++ computeToLoad st entryIds).filter
          (fun id => !((computeToLoad st entryIds).contains id)))
      have hp := List.of_mem_filter hm
      rw [contains_of_mem he] at hp
      cases hp

/-- Fetch stub for the C6 instance: entry 7 fails with a non-success status,
every other entry succeeds. -/
def sampleFetch : Nat → SummaryFetchRes :=
  fun i => if i = 7 then .httpError else .ok "S"

/-- Entry record with id 7 used by the C6 instance. -/
def entry7 : JournalEntry := ⟨7, none, "seven"⟩

/-- Instance of c6_failure_isolated: ids 7 and 8 are dispatched from the
empty state, the fetch for 7 returns HTTP 500, the fetch for 8 succeeds. -/
theorem c6_failure_isolated_inst :
    (7 ∈ computeToLoad initSummaryState [7, 8]) ∧
    ((loadEntrySummariesBatch id sampleFetch initSummaryState [7, 8]).entrySummaries 7
        = some "" ∧
      summaryTruthy ((loadEntrySummariesBatch id sampleFetch initSummaryState [7, 8]).entrySummaries 7)
        = false ∧
      entryCellText (fun _ => "PREVIEW") (loadEntrySummariesBatch id sampleFetch initSummaryState [7, 8]) entry7
        = "PREVIEW" ∧
      (loadEntrySummariesBatch id sampleFetch initSummaryState [7, 8]).batchLoadingEntries.contains 7
        = false ∧
      (loadEntrySummariesBatch id sampleFetch initSummaryState [7, 8]).entrySummaries 8
        = some "S") := by
  have hmem : (7 : Nat) ∈ computeToLoad initSummaryState [7, 8] := by decide
  have h := c6_failure_isolated id sampleFetch initSummaryState [7, 8]
    (fun _ => "PREVIEW") entry7 hmem rfl
  exact ⟨hmem, h.1, h.2.1, h.2.2.1, h.2.2.2.1,
    by
      rw [h.2.2.2.2 8 (by decide)]
      rfl⟩

/-- Server stub with 25 entries for the C7 scenario: each page request
returns the entries at the requested offset, at most limit of them. -/
def server25 : Nat → Nat → PageResult := fun limit offsetArg =>
  .ok ((((List.range 25).drop offsetArg).take limit).map (fun i => ⟨i, none, ""⟩))

/-- First scenario state: empty list, page 0, known total 25. -/
def scenario0 : JournalState := { journal := [], journalPage := 0, journalTotal := 25 }

/-- Scenario state after one loadMore. -/
def scenario1 : JournalState := (loadMoreJournal true server25 scenario0).1

/-- Scenario state after two loadMore calls. -/
def scenario2 : JournalState := (loadMoreJournal true server25 scenario1).1

/-- Scenario state after three loadMore calls. -/
def scenario3 : JournalState := (loadMoreJournal true server25 scenario2).1

/-- C7: once the next offset journalPage times PAGE_SIZE reaches the known
total, loadMoreJournal is a no-op that issues no request and leaves the
state unchanged, for every server behavior; and in the concrete scenario
with pageSize 10 and total 25, three successive calls starting from the
empty list yield list lengths 10, 20 and 25, after which a fourth call
changes nothing and issues no request. -/
theorem c7_load_more_pagination :
    (∀ (userId : Bool) (server : Nat → Nat → PageResult) (st : JournalState),
      st.journalPage * PAGE_SIZE ≥ st.journalTotal →
        loadMoreJournal userId server st = (st, [])) ∧
    scenario1.journal.length = 10 ∧
    scenario2.journal.length = 20 ∧
    scenario3.journal.length = 25 ∧
    loadMoreJournal true server25 scenario3 = (scenario3, []) := by
  refine ⟨?_, by decide, by decide, by decide, by decide⟩
  intro userId server st h
  cases userId
  · simp [loadMoreJournal]
  · simp [loadMoreJournal, h]

/-- Instance of the universally quantified part of c7_load_more_pagination at
a saturated concrete state. -/
theorem c7_load_more_pagination_inst :
    ((3 : Nat) * PAGE_SIZE ≥ 25) ∧
    loadMoreJournal true server25 { journal := [], journalPage := 3, journalTotal := 25 }
      = ({ journal := [], journalPage := 3, journalTotal := 25 }, []) :=
  ⟨by decide,
   c7_load_more_pagination.1 true server25
     { journal := [], journalPage := 3, journalTotal := 25 } (by decide)⟩

/-- C8: a successful delete removes exactly the entries with the deleted id
from the list and leaves every other entry in place; it clears the selection
precisely when the selected entry carried the deleted id and leaves the
selection unchanged otherwise. -/
theorem c8_delete_frame (st : SelectionState) (id : Nat) :
    (∀ e ∈ (deleteJournalEntry true st id).1.journal, e.id ≠ id) ∧
    (deleteJournalEntry true st id).1.journal = st.journal.filter (fun j => j.id != id) ∧
    (∀ e ∈ st.journal, e.id ≠ id → e ∈ (deleteJournalEntry true st id).1.journal) ∧
    (∀ e, st.selectedEntry = some e → e.id = id →
      (deleteJournalEntry true st id).1.selectedEntry = none) ∧
    (∀ e, st.selectedEntry = some e → e.id ≠ id →
      (deleteJournalEntry true st id).1.selectedEntry = st.selectedEntry) ∧
    (st.selectedEntry = none → (deleteJournalEntry true st id).1.selectedEntry = none) := by
  refine ⟨?_, rfl, ?_, ?_, ?_, ?_⟩
  · intro e he
    have h := List.of_mem_filter he
    simpa using h
  · intro e he hne
    exact List.mem_filter.2 ⟨he, by simpa using hne⟩
  · intro e hsel hid
    simp [deleteJournalEntry, hsel, hid]
  · intro e hsel hne
    simp [deleteJournalEntry, hsel, hne]
  · intro hsel
    simp [deleteJournalEntry, hsel]

/-- Entry records used by the C8 instance. -/
def entryA : JournalEntry := ⟨1, some "a", "alpha"⟩

/-- Second entry record used by the C8 instance. -/
def entryB : JournalEntry := ⟨2, some "b", "beta"⟩

/-- Instance of c8_delete_frame: deleting the selected entry 1 removes it and
clears the selection; deleting the non-selected entry 2 keeps the selection. -/
theorem c8_delete_frame_inst :
    (deleteJournalEntry true ⟨[entryA, entryB], some entryA⟩ 1).1.selectedEntry = none ∧
    (deleteJournalEntry true ⟨[entryA, entryB], some entryA⟩ 1).1.journal = [entryB] ∧
    (deleteJournalEntry true ⟨[entryA, entryB], some entryA⟩ 2).1.selectedEntry = some entryA :=
  ⟨(c8_delete_frame ⟨[entryA, entryB], some entryA⟩ 1).2.2.2.1 entryA rfl rfl,
   by
     rw [(c8_delete_frame ⟨[entryA, entryB], some entryA⟩ 1).2.1]
     decide,
   (c8_delete_frame ⟨[entryA, entryB], some entryA⟩ 2).2.2.2.2.1 entryA rfl (by decide)⟩

/-- C9 counterexample: the insights-dashboard fetch of the app root
(refreshDashboard) maps an abort-due-to-timeout and a non-success status
alike to the generic text, not to the specific timed-out message and not to
a message carrying the status code and body. -/
theorem c9_counterexample :
    refreshDashboardError .abortTimeout = some "Failed to load insights" ∧
    refreshDashboardError (.httpError 500 "boom") = some "Failed to load insights" ∧
    ("Failed to load insights" : String)
      ≠ "Request timed out. The analysis is taking longer than expected. Please try again." :=
  ⟨rfl, rfl, by decide⟩

/-- C9 amended: both insights-dashboard fetch sites attach the 60-second
abort token and the chat and chat-stream requests carry none; the
InsightsDashboard component fetch distinguishes the outcomes as the claim
states (specific timed-out message on abort, status code with body text on a
non-success status), while the app-root refreshDashboard reports the same
generic message for every failure. -/
theorem c9_dashboard_timeout_errors (status : Nat) (bodyText text : String) :
    insightsDashboardRequest.timeoutMs = some 60000 ∧
    (chatRequest text).timeoutMs = none ∧
    (chatStreamRequest text).timeoutMs = none ∧
    (fetchDashboardData .abortTimeout).2
      = some "Request timed out. The analysis is taking longer than expected. Please try again." ∧
    (fetchDashboardData (.httpError status bodyText)).2
      = some ("Failed to load insights dashboard: " ++ toString status ++ " - " ++ bodyText) ∧
    refreshDashboardError .abortTimeout = some "Failed to load insights" ∧
    refreshDashboardError (.httpError status bodyText) = some "Failed to load insights" :=
  ⟨rfl, rfl, rfl, rfl, rfl, rfl, rfl⟩
